import Mathlib

/-!
Shallow embedding of `src/adb_manager.py` (class `ADBManager`) from the
Android-lock-recovery repository.

External process execution (`subprocess.run`) is abstracted by an
environment `Env : Nat → List String → ProcOutcome`: given the ordinal of
the spawn (how many processes the session has spawned so far) and the full
argument vector, it yields the outcome of that spawn (normal completion
with exit code / stdout / stderr, a timeout, or some other exception).
`time.sleep` is modelled by a counter of slept time-units, and the list of
spawned invocations is recorded in a trace, so that invocation counts and
argument vectors can be reasoned about.
-/

/-- Outcome of one attempted process spawn (`subprocess.run`). -/
inductive ProcOutcome where
  | completed (returncode : Int) (stdout stderr : String)
  | timedOut
  | exc (msg : String)
deriving Repr, DecidableEq

/-- The `subprocess.run` environment: spawn ordinal and full argument
vector determine the outcome. -/
abbrev Env := Nat → List String → ProcOutcome

/-- The dict returned by `ADBManager.execute_command`. -/
structure CommandResult where
  success : Bool
  output : String
  error : String
  returncode : Int
deriving Repr, DecidableEq

/-- Python `str.strip()`: remove leading and trailing whitespace. -/
def pyStrip (s : String) : String :=
  ⟨((s.data.dropWhile Char.isWhitespace).reverse.dropWhile Char.isWhitespace).reverse⟩

/-- Does `pat` occur as a contiguous sublist of the argument? -/
def subOccurs (pat : List Char) : List Char → Bool
  | [] => pat.isEmpty
  | c :: rest => pat.isPrefixOf (c :: rest) || subOccurs pat rest

/-- Python `pat in s` substring containment test. -/
def strContains (s pat : String) : Bool :=
  subOccurs pat.data s.data

/-- Session fields set in `ADBManager.__init__`: `self.adb_path`,
`self.devices`, `self.timeout`. -/
structure ADBManager where
  adb_path : Option String
  devices : List String
  timeout : Nat
deriving Repr, DecidableEq

/-- Session state: the manager plus the observable effect trace
(spawned invocations, in order, and total slept time-units). -/
structure SessState where
  mgr : ADBManager
  trace : List (List String)
  slept : Nat
deriving Repr, DecidableEq

/-- The body of the `try` block of `execute_command` once the process has
run: normal completion maps exit code to `success = (returncode == 0)` and
strips stdout/stderr; `subprocess.TimeoutExpired` and any other exception
are normalised into a `CommandResult` with `returncode = -1`. -/
def run_core (env : Env) (n : Nat) (full : List String) : CommandResult :=
  match env n full with
  | .completed rc out err => ⟨rc == 0, pyStrip out, pyStrip err, rc⟩
  | .timedOut => ⟨false, "", "Command timed out", -1⟩
  | .exc msg => ⟨false, "", msg, -1⟩

/-- Spawn a process: record the invocation in the trace and produce the
`CommandResult` given by the environment at the current spawn ordinal. -/
def spawn (env : Env) (s : SessState) (full : List String) :
    CommandResult × SessState :=
  (run_core env s.trace.length full,
   ⟨s.mgr, s.trace ++ [full], s.slept⟩)

/-- `execute_command` restricted to `wait_for_device=False` (the form the
device-wait loop itself uses, so it is not device-gated): raise
`Exception("ADB not found")` when no path is resolved, else build
`[self.adb_path] + command` and run it. -/
def exec_cmd_core (env : Env) (s : SessState) (command : List String) :
    Except String (CommandResult × SessState) :=
  match s.mgr.adb_path with
  | none => .error "ADB not found"
  | some p => .ok (spawn env s (p :: command))

/-- The loop body of `ADBManager.wait_for_device`: up to `fuel` remaining
iterations, each issuing `execute_command(['devices'])` (not device-gated)
and testing `'device\n' in result['output']`; on a miss sleep 1 time-unit
and continue. Returns (found, iterations actually performed, state). -/
def wait_loop (env : Env) : Nat → SessState → Except String (Bool × Nat × SessState)
  | 0, s => .ok (false, 0, s)
  | Nat.succ fuel, s =>
    match exec_cmd_core env s ["devices"] with
    | .error e => .error e
    | .ok (r, s₁) =>
      if strContains r.output "device\n" then .ok (true, 1, s₁)
      else
        match wait_loop env fuel ⟨s₁.mgr, s₁.trace, s₁.slept + 1⟩ with
        | .error e => .error e
        | .ok (b, k, s₂) => .ok (b, k + 1, s₂)

/-- `ADBManager.wait_for_device(max_attempts=30)`. -/
def wait_for_device (env : Env) (max_attempts : Nat) (s : SessState) :
    Except String (Bool × Nat × SessState) :=
  wait_loop env max_attempts s

/-- `ADBManager.execute_command(command, wait_for_device=False)`: raises
iff `self.adb_path` is falsy; otherwise optionally runs the device-wait
protocol first (inside the `try`, so an exception there would be caught
and normalised), then spawns `[self.adb_path] + command`. -/
def execute_command (env : Env) (command : List String) (wait : Bool)
    (s : SessState) : Except String (CommandResult × SessState) :=
  match s.mgr.adb_path with
  | none => .error "ADB not found"
  | some p =>
    match (if wait then wait_for_device env 30 s else .ok (false, 0, s)) with
    | .error e => .ok (⟨false, "", e, -1⟩, s)
    | .ok (_, _, s₁) => .ok (spawn env s₁ (p :: command))

/-! ### Path resolution (`find_adb`, `_check_adb_path`)

At construction time (before any session trace exists) the candidate
probes are abstracted by `probe : String → ProcOutcome`: the outcome of
`subprocess.run([path, '--version'], timeout=5)` for each candidate. -/

/-- `ADBManager._check_adb_path`: run `[path, '--version']` under a 5
time-unit timeout; `True` iff it completes with exit code 0; the bare
`except:` turns every exception (not found, permission denied, timeout)
into `False`. -/
def check_adb_path (probe : String → ProcOutcome) (path : String) : Bool :=
  match probe path with
  | .completed rc _ _ => rc == 0
  | .timedOut => false
  | .exc _ => false

/-- The fixed ordered candidate list of `ADBManager.find_adb`
(`Path.home()` abstracted as the `home` string). -/
def possible_paths (home : String) : List String :=
  ["adb",
   "/usr/bin/adb",
   "/usr/local/bin/adb",
   "C:\\Android\\platform-tools\\adb.exe",
   home ++ "/AppData/Local/Android/Sdk/platform-tools/adb.exe",
   home ++ "/Library/Android/sdk/platform-tools/adb"]

/-- The probing loop of `ADBManager.find_adb`: return the first candidate
that checks out, else `None`. -/
def find_adb_loop (probe : String → ProcOutcome) : List String → Option String
  | [] => none
  | p :: rest =>
    if check_adb_path probe p then some p else find_adb_loop probe rest

/-- `ADBManager.find_adb`. -/
def find_adb (probe : String → ProcOutcome) (home : String) : Option String :=
  find_adb_loop probe (possible_paths home)

/-- `ADBManager.__init__`: resolve the path once, empty device list,
timeout 30. -/
def ADBManager.init (probe : String → ProcOutcome) (home : String) : ADBManager :=
  ⟨find_adb probe home, [], 30⟩

/-! ### DeviceSessionFacade operations -/

/-- The fixed battery of property queries of `get_device_info`
(each command string split on whitespace, paired with its key). -/
def info_commands : List (List String × String) :=
  [(["shell", "getprop", "ro.product.model"], "Model"),
   (["shell", "getprop", "ro.build.version.release"], "Android Version"),
   (["shell", "getprop", "ro.build.version.security_patch"], "Security Patch"),
   (["shell", "getprop", "ro.product.manufacturer"], "Manufacturer"),
   (["shell", "getprop", "ro.serialno"], "Serial Number"),
   (["shell", "getprop", "ro.bootloader"], "Bootloader"),
   (["shell", "getprop", "ro.hardware"], "Hardware")]

/-- The `for cmd, key in commands` loop of `get_device_info`: issue each
query with `execute_command(cmd.split())`; record `key ↦ output.strip()`
only when the result succeeded with truthy (non-empty) output. The
mapping is modelled as an association list in insertion order. -/
def info_loop (env : Env) :
    List (List String × String) → SessState →
    Except String (List (String × String) × SessState)
  | [], s => .ok ([], s)
  | (cmd, key) :: rest, s =>
    match execute_command env cmd false s with
    | .error e => .error e
    | .ok (r, s₁) =>
      match info_loop env rest s₁ with
      | .error e => .error e
      | .ok (info, s₂) =>
        if r.success && (r.output != "") then
          .ok ((key, pyStrip r.output) :: info, s₂)
        else
          .ok (info, s₂)

/-- `ADBManager.get_device_info(device_id=None)`. The `device_id`
parameter is accepted (as in the source) and, as in the source, appears
nowhere in the body. -/
def get_device_info (env : Env) (device_id : Option String) (s : SessState) :
    Except String (List (String × String) × SessState) :=
  info_loop env info_commands s

/-- The `modes` dict of `reboot_device`, as an association list. -/
def reboot_modes : List (String × String) :=
  [("system", ""),
   ("recovery", "recovery"),
   ("bootloader", "bootloader"),
   ("fastboot", "bootloader"),
   ("download", "download"),
   ("sideload", "sideload")]

/-- `ADBManager.reboot_device(mode)`: unknown mode prints and returns
`False` before any invocation; otherwise run `['reboot']` (plus the
non-empty target), and on success sleep 5 time-units and return `True`. -/
def reboot_device (env : Env) (mode : String) (s : SessState) :
    Except String (Bool × SessState) :=
  match reboot_modes.lookup mode with
  | none => .ok (false, s)
  | some tgt =>
    match execute_command env (if tgt == "" then ["reboot"] else ["reboot", tgt]) false s with
    | .error e => .error e
    | .ok (r, s₁) =>
      if r.success then .ok (true, ⟨s₁.mgr, s₁.trace, s₁.slept + 5⟩)
      else .ok (false, s₁)

/-- `ADBManager.is_device_rooted()`: primary elevated-echo check, and
only when it does not establish root, the fallback `which su` check. -/
def is_device_rooted (env : Env) (s : SessState) :
    Except String (Bool × SessState) :=
  match execute_command env ["shell", "su", "-c", "echo root_check"] false s with
  | .error e => .error e
  | .ok (r, s₁) =>
    if r.success && strContains r.output "root_check" then .ok (true, s₁)
    else
      match execute_command env ["shell", "which", "su"] false s₁ with
      | .error e => .error e
      | .ok (r₂, s₂) => .ok (r₂.success && strContains r₂.output "/su", s₂)

/-- `ADBManager.push_file(local_path, device_path)`; the local filesystem
(`os.path.exists`) is abstracted by `fs`. -/
def push_file (env : Env) (fs : String → Bool)
    (local_path device_path : String) (s : SessState) :
    Except String (Bool × SessState) :=
  if fs local_path = false then .ok (false, s)
  else
    match execute_command env ["push", local_path, device_path] false s with
    | .error e => .error e
    | .ok (r, s₁) => .ok (r.success, s₁)

/-- `ADBManager.pull_file(device_path, local_path)`. -/
def pull_file (env : Env) (device_path local_path : String) (s : SessState) :
    Except String (Bool × SessState) :=
  match execute_command env ["pull", device_path, local_path] false s with
  | .error e => .error e
  | .ok (r, s₁) => .ok (r.success, s₁)

/-- `ADBManager.shell_command(command, root=False)`: with `root` the
command string is wrapped as `su -c "<command>"` by plain interpolation. -/
def shell_command (env : Env) (command : String) (root : Bool) (s : SessState) :
    Except String (CommandResult × SessState) :=
  execute_command env
    ["shell", if root then "su -c \"" ++ command ++ "\"" else command] false s


/-- Pure characterization of the info-gathering loop used to state C6:
the entry for each query depends only on that query's own spawn outcome,
at spawn ordinal `base +` its position in the battery. -/
def info_collect (env : Env) (p : String) (base : Nat) :
    List (List String × String) → List (String × String)
  | [] => []
  | (cmd, key) :: rest =>
    if (run_core env base (p :: cmd)).success &&
        ((run_core env base (p :: cmd)).output != "") then
      (key, pyStrip (run_core env base (p :: cmd)).output) ::
        info_collect env p (base + 1) rest
    else
      info_collect env p (base + 1) rest

/-! ### Concrete sessions and environments used by witnesses and
counterexamples -/

def mgr0 : ADBManager := ⟨some "adb", [], 30⟩

def s0 : SessState := ⟨mgr0, [], 0⟩

def sNone : SessState := ⟨⟨none, [], 30⟩, [], 0⟩

def envC1 : Env := fun n _ => if n = 0 then .timedOut else .exc "boom"

def envC2 : Env := fun _ _ => .completed 7 " out \n" "\terr "

/-- A device-list reply whose only ready-state line is the final line:
its trailing newline is removed by `strip()`. -/
def rawReady : String := "List of devices attached\nABC123\tdevice\n"

def envReadyLast : Env := fun _ _ => .completed 0 rawReady ""

/-- A stub that never reports a ready device. -/
def envNever : Env := fun _ _ => .completed 0 "no devices found" ""

/-- A stub reporting not-ready for 2 polls, then a ready line followed by
another line (so the substring check fires). -/
def envW3 : Env := fun n _ =>
  if n < 2 then .completed 0 "nothing" ""
  else .completed 0 "ABC\tdevice\nXYZ\toffline" ""

/-- A stub where every invocation succeeds with output "value". -/
def envOk : Env := fun _ _ => .completed 0 "value" ""

/-- A stub whose primary elevated-echo check succeeds with the marker. -/
def envRoot : Env := fun _ _ => .completed 0 "root_check" ""

/-- A candidate probe where only `/usr/local/bin/adb` answers the version
query with exit code 0; every other candidate raises. -/
def probeC9 : String → ProcOutcome := fun path =>
  if path = "/usr/local/bin/adb" then
    .completed 0 "Android Debug Bridge version 1.0.41" ""
  else
    .exc "No such file or directory"

/-- Seven property-query stubs of which two do not produce an entry:
ordinal 2 (Security Patch) fails with exit code 1, ordinal 5 (Bootloader)
succeeds with empty output. -/
def envC6 : Env := fun n _ =>
  if n = 2 then .completed 1 "x" ""
  else if n = 5 then .completed 0 "" ""
  else .completed 0 " v " ""

/-! ### Helper lemmas -/

/-- With a resolved path and no device-gating, `execute_command` spawns
exactly `[adb_path] + command` at the current spawn ordinal. -/
lemma execute_command_nowait (env : Env) (command : List String)
    (s : SessState) (p : String) (h : s.mgr.adb_path = some p) :
    execute_command env command false s =
      .ok (run_core env s.trace.length (p :: command),
           ⟨s.mgr, s.trace ++ [p :: command], s.slept⟩) := by
  simp [execute_command, h, spawn]

/-- With a resolved path, the device-wait loop never raises, leaves the
manager unchanged, and performs at most `fuel` iterations. -/
lemma wait_loop_ok (env : Env) (p : String) :
    ∀ (fuel : Nat) (s : SessState), s.mgr.adb_path = some p →
      ∃ b k s', wait_loop env fuel s = .ok (b, k, s') ∧ s'.mgr = s.mgr ∧ k ≤ fuel := by
  intro fuel
  induction fuel with
  | zero =>
    intro s h
    exact ⟨false, 0, s, rfl, rfl, Nat.le_refl 0⟩
  | succ fuel ih =>
    intro s h
    simp only [wait_loop, exec_cmd_core, h, spawn]
    by_cases hc :
        strContains (run_core env s.trace.length [p, "devices"]).output "device\n" = true
    · exact ⟨true, 1, ⟨s.mgr, s.trace ++ [[p, "devices"]], s.slept⟩,
        by simp [hc], rfl, by omega⟩
    · obtain ⟨b, k, s', hw, hm, hk⟩ :=
        ih ⟨s.mgr, s.trace ++ [[p, "devices"]], s.slept + 1⟩ h
      exact ⟨b, k + 1, s', by simp [hc, hw], hm, by omega⟩

/-- With a resolved path, `execute_command` (with or without
device-gating) returns the result of spawning `[adb_path] + command` from
some intermediate state with the same manager. -/
lemma execute_command_some (env : Env) (command : List String) (wait : Bool)
    (s : SessState) (p : String) (h : s.mgr.adb_path = some p) :
    ∃ s₁ : SessState, s₁.mgr = s.mgr ∧
      execute_command env command wait s =
        .ok (run_core env s₁.trace.length (p :: command),
             ⟨s₁.mgr, s₁.trace ++ [p :: command], s₁.slept⟩) := by
  cases wait with
  | false => exact ⟨s, rfl, execute_command_nowait env command s p h⟩
  | true =>
    obtain ⟨b, k, s', hw, hm, _⟩ := wait_loop_ok env p 30 s h
    refine ⟨s', hm, ?_⟩
    simp [execute_command, h, wait_for_device, hw, spawn]

/-- One polling iteration that misses: wrap the remaining loop's outcome,
bumping the iteration count. -/
lemma wait_loop_step_miss (env : Env) (fuel : Nat) (s : SessState) (p : String)
    (h : s.mgr.adb_path = some p)
    (hmiss : strContains (run_core env s.trace.length [p, "devices"]).output "device\n" = false)
    (b : Bool) (k : Nat) (s' : SessState)
    (hrec : wait_loop env fuel ⟨s.mgr, s.trace ++ [[p, "devices"]], s.slept + 1⟩ =
      .ok (b, k, s')) :
    wait_loop env (fuel + 1) s = .ok (b, k + 1, s') := by
  simp [wait_loop, exec_cmd_core, h, spawn, hmiss, hrec]

/-- One polling iteration that detects the substring: return immediately
after a single iteration, with no sleep. -/
lemma wait_loop_step_hit (env : Env) (fuel : Nat) (s : SessState) (p : String)
    (h : s.mgr.adb_path = some p)
    (hhit : strContains (run_core env s.trace.length [p, "devices"]).output "device\n" = true) :
    wait_loop env (fuel + 1) s =
      .ok (true, 1, ⟨s.mgr, s.trace ++ [[p, "devices"]], s.slept⟩) := by
  simp [wait_loop, exec_cmd_core, h, spawn, hhit]

/-- When no polled output ever contains the substring `"device\n"`, the
loop runs all its iterations, sleeping once per iteration. -/
lemma wait_loop_exhaust (env : Env) (p : String)
    (hnone : ∀ n, strContains (run_core env n [p, "devices"]).output "device\n" = false) :
    ∀ (fuel : Nat) (s : SessState), s.mgr.adb_path = some p →
      wait_loop env fuel s =
        .ok (false, fuel,
             ⟨s.mgr, s.trace ++ List.replicate fuel [p, "devices"], s.slept + fuel⟩) := by
  intro fuel
  induction fuel with
  | zero =>
    intro s h
    simp [wait_loop]
  | succ fuel ih =>
    intro s h
    have hrec := ih ⟨s.mgr, s.trace ++ [[p, "devices"]], s.slept + 1⟩ h
    have hstep := wait_loop_step_miss env fuel s p h (hnone s.trace.length) _ _ _ hrec
    rw [hstep]
    have harith : s.slept + 1 + fuel = s.slept + (fuel + 1) := by omega
    simp [List.replicate_succ, harith]

/-- The info-gathering loop equals its pure characterization: each entry
depends only on its own query's outcome, and one invocation is issued per
query regardless of the other queries' outcomes. -/
lemma info_loop_eq (env : Env) (p : String) :
    ∀ (cmds : List (List String × String)) (s : SessState),
      s.mgr.adb_path = some p →
      info_loop env cmds s =
        .ok (info_collect env p s.trace.length cmds,
             ⟨s.mgr, s.trace ++ cmds.map (fun c => p :: c.1), s.slept⟩) := by
  intro cmds
  induction cmds with
  | nil =>
    intro s h
    simp [info_loop, info_collect]
  | cons c rest ih =>
    obtain ⟨cmd, key⟩ := c
    intro s h
    have hrec := ih ⟨s.mgr, s.trace ++ [p :: cmd], s.slept⟩ h
    simp only [info_loop, execute_command_nowait env cmd s p h, hrec]
    by_cases hc : ((run_core env s.trace.length (p :: cmd)).success &&
        ((run_core env s.trace.length (p :: cmd)).output != "")) = true
    · simp [info_collect, hc, List.length_append]
    · simp [info_collect, hc, List.length_append]

/-- Membership in the pure characterization: `(key, v)` is recorded iff
some position of the battery carries `key` and its own query succeeded
with non-empty output, `v` being that output stripped. -/
lemma info_collect_mem (env : Env) (p : String) :
    ∀ (cmds : List (List String × String)) (base : Nat) (key v : String),
      ((key, v) ∈ info_collect env p base cmds ↔
        ∃ i cmd, cmds.get? i = some (cmd, key) ∧
          (run_core env (base + i) (p :: cmd)).success = true ∧
          (run_core env (base + i) (p :: cmd)).output ≠ "" ∧
          v = pyStrip (run_core env (base + i) (p :: cmd)).output) := by
  intro cmds
  induction cmds with
  | nil =>
    intro base key v
    simp [info_collect]
  | cons c rest ih =>
    obtain ⟨cmd0, key0⟩ := c
    intro base key v
    constructor
    · intro hmem
      by_cases hc : ((run_core env base (p :: cmd0)).success &&
          ((run_core env base (p :: cmd0)).output != "")) = true
      · rw [info_collect, if_pos hc] at hmem
        rcases List.mem_cons.mp hmem with heq | htail
        · simp only [Prod.mk.injEq] at heq
          obtain ⟨hk, hv⟩ := heq
          refine ⟨0, cmd0, by simp [hk.symm], ?_, ?_, ?_⟩
          · exact (Bool.and_eq_true _ _ ▸ hc).1
          · have := (Bool.and_eq_true _ _ ▸ hc).2
            simpa [bne_iff_ne] using this
          · simpa using hv
        · obtain ⟨j, cmd, hj, hs, ho, hv⟩ := (ih (base + 1) key v).mp htail
          refine ⟨j + 1, cmd, by simpa using hj, ?_, ?_, ?_⟩
          · simpa [Nat.add_assoc, Nat.add_comm 1 j] using hs
          · simpa [Nat.add_assoc, Nat.add_comm 1 j] using ho
          · simpa [Nat.add_assoc, Nat.add_comm 1 j] using hv
      · rw [info_collect, if_neg hc] at hmem
        obtain ⟨j, cmd, hj, hs, ho, hv⟩ := (ih (base + 1) key v).mp hmem
        refine ⟨j + 1, cmd, by simpa using hj, ?_, ?_, ?_⟩
        · simpa [Nat.add_assoc, Nat.add_comm 1 j] using hs
        · simpa [Nat.add_assoc, Nat.add_comm 1 j] using ho
        · simpa [Nat.add_assoc, Nat.add_comm 1 j] using hv
    · rintro ⟨i, cmd, hi, hs, ho, hv⟩
      cases i with
      | zero =>
        simp only [List.get?_cons_zero, Option.some.injEq, Prod.mk.injEq] at hi
        obtain ⟨hcmd, hkey⟩ := hi
        subst hcmd
        simp only [Nat.add_zero] at hs ho hv
        have hc : ((run_core env base (p :: cmd0)).success &&
            ((run_core env base (p :: cmd0)).output != "")) = true := by
          simp [hs, bne_iff_ne, ho]
        rw [info_collect, if_pos hc]
        exact List.mem_cons.mpr (Or.inl (by simp [hkey, hv]))
      | succ j =>
        have htail : (key, v) ∈ info_collect env p (base + 1) rest := by
          apply (ih (base + 1) key v).mpr
          refine ⟨j, cmd, by simpa using hi, ?_, ?_, ?_⟩
          · simpa [Nat.add_assoc, Nat.add_comm 1 j] using hs
          · simpa [Nat.add_assoc, Nat.add_comm 1 j] using ho
          · simpa [Nat.add_assoc, Nat.add_comm 1 j] using hv
        rw [info_collect]
        by_cases hc : ((run_core env base (p :: cmd0)).success &&
            ((run_core env base (p :: cmd0)).output != "")) = true
        · rw [if_pos hc]
          exact List.mem_cons.mpr (Or.inr htail)
        · rw [if_neg hc]
          exact htail

/-! ### The claims -/

/-- C1: `execute_command` raises exactly when no executable location is
resolved (`adb_path` is `None`); in every other case it returns a
`CommandResult`, and the result of the spawned invocation is, on timeout,
`success=false, returncode=-1, error="Command timed out"` and, on any
other spawn exception, `success=false, returncode=-1, error=str(e)`. -/
theorem execute_command_error_policy (env : Env) (command : List String)
    (wait : Bool) (s : SessState) :
    ((∃ e, execute_command env command wait s = .error e) ↔ s.mgr.adb_path = none)
    ∧ (∀ n full, env n full = .timedOut →
         run_core env n full = ⟨false, "", "Command timed out", -1⟩)
    ∧ (∀ n full msg, env n full = .exc msg →
         run_core env n full = ⟨false, "", msg, -1⟩)
    ∧ (∀ p, s.mgr.adb_path = some p →
         ∃ s₁ : SessState, execute_command env command wait s =
           .ok (run_core env s₁.trace.length (p :: command),
                ⟨s₁.mgr, s₁.trace ++ [p :: command], s₁.slept⟩)) := by
  refine ⟨⟨?_, ?_⟩, ?_, ?_, ?_⟩
  · rintro ⟨e, he⟩
    cases hp : s.mgr.adb_path with
    | none => rfl
    | some p =>
      obtain ⟨s₁, _, heq⟩ := execute_command_some env command wait s p hp
      rw [heq] at he
      cases he
  · intro hn
    exact ⟨"ADB not found", by simp [execute_command, hn]⟩
  · intro n full ht
    simp [run_core, ht]
  · intro n full msg ht
    simp [run_core, ht]
  · intro p hp
    obtain ⟨s₁, _, heq⟩ := execute_command_some env command wait s p hp
    exact ⟨s₁, heq⟩

theorem execute_command_error_policy_witness :
    run_core envC1 0 ["adb", "x"] = ⟨false, "", "Command timed out", -1⟩
    ∧ run_core envC1 1 ["adb", "x"] = ⟨false, "", "boom", -1⟩ :=
  ⟨(execute_command_error_policy envC1 ["x"] false s0).2.1 0 ["adb", "x"] rfl,
   (execute_command_error_policy envC1 ["x"] false s0).2.2.1 1 ["adb", "x"] "boom" rfl⟩

/-- C2: on a normal completion under the timeout, the returned
`CommandResult` has `success` true iff the exit code is 0, and its
`output`/`error` are the captured stdout/stderr stripped of surrounding
whitespace. -/
theorem execute_command_exit_code_mapping (env : Env) (command : List String)
    (wait : Bool) (s : SessState) (p : String) (h : s.mgr.adb_path = some p) :
    ∃ s₁ : SessState,
      execute_command env command wait s =
        .ok (run_core env s₁.trace.length (p :: command),
             ⟨s₁.mgr, s₁.trace ++ [p :: command], s₁.slept⟩)
      ∧ ∀ rc out err, env s₁.trace.length (p :: command) = .completed rc out err →
          run_core env s₁.trace.length (p :: command) =
            ⟨rc == 0, pyStrip out, pyStrip err, rc⟩
          ∧ ((rc == 0) = true ↔ rc = 0) := by
  obtain ⟨s₁, _, heq⟩ := execute_command_some env command wait s p h
  refine ⟨s₁, heq, ?_⟩
  intro rc out err hc
  refine ⟨by simp [run_core, hc], ?_⟩
  simp

theorem execute_command_exit_code_mapping_witness :
    run_core envC2 0 ["adb", "shell", "ls"] =
      ⟨(7 : Int) == 0, pyStrip " out \n", pyStrip "\terr ", 7⟩
    ∧ (((7 : Int) == 0) = true ↔ (7 : Int) = 0) := by
  obtain ⟨s₁, heq, hcomp⟩ :=
    execute_command_exit_code_mapping envC2 ["shell", "ls"] false s0 "adb" rfl
  exact hcomp 7 " out \n" "\terr " rfl

/-- C3 counterexample: a device-list reply whose single ready-state line
("ABC123\tdevice") is the last line is NOT detected — `execute_command`
strips the trailing newline, so `'device\n' in output` is false and
`wait_for_device` exhausts all 3 attempts instead of returning true. -/
theorem wait_for_device_misses_trailing_ready_line :
    strContains rawReady "\tdevice\n" = true
    ∧ wait_for_device envReadyLast 3 s0 =
        .ok (false, 3, ⟨mgr0, List.replicate 3 ["adb", "devices"], 3⟩) := by
  constructor
  · decide
  · rfl

/-- C3 (amended): an iteration detects a ready device exactly when the
*stripped* device-list output still contains the substring `"device\n"`
(i.e. the ready-state line is followed by further output); with a stub
whose first two polls lack the substring and whose third contains it,
`wait_for_device` returns true on the 3rd iteration (2 sleeps) without
exhausting `max_attempts`. -/
theorem wait_for_device_third_iteration (env : Env) (s : SessState)
    (p : String) (max_attempts : Nat) (h : s.mgr.adb_path = some p)
    (hmax : 3 ≤ max_attempts)
    (h1 : strContains (run_core env s.trace.length [p, "devices"]).output "device\n" = false)
    (h2 : strContains (run_core env (s.trace.length + 1) [p, "devices"]).output "device\n" = false)
    (h3 : strContains (run_core env (s.trace.length + 2) [p, "devices"]).output "device\n" = true) :
    wait_for_device env max_attempts s =
      .ok (true, 3, ⟨s.mgr, s.trace ++ List.replicate 3 [p, "devices"], s.slept + 2⟩) := by
  obtain ⟨k, rfl⟩ : ∃ k, max_attempts = k + 3 := ⟨max_attempts - 3, by omega⟩
  show wait_loop env (k + 3) s = _
  have h2' : strContains
      (run_core env ((s.trace ++ [[p, "devices"]]).length) [p, "devices"]).output
      "device\n" = false := by
    simpa using h2
  have h3' : strContains
      (run_core env (((s.trace ++ [[p, "devices"]]) ++ [[p, "devices"]]).length) [p, "devices"]).output
      "device\n" = true := by
    simpa [Nat.add_assoc] using h3
  have t3 := wait_loop_step_hit env k
    ⟨s.mgr, (s.trace ++ [[p, "devices"]]) ++ [[p, "devices"]], s.slept + 1 + 1⟩ p h h3'
  have t2 := wait_loop_step_miss env (k + 1)
    ⟨s.mgr, s.trace ++ [[p, "devices"]], s.slept + 1⟩ p h h2' _ _ _ t3
  have t1 := wait_loop_step_miss env (k + 2) s p h h1 _ _ _ t2
  rw [t1]
  have harith : s.slept + 1 + 1 = s.slept + 2 := by omega
  simp [List.replicate_succ, List.append_assoc, harith]

theorem wait_for_device_third_iteration_witness :
    wait_for_device envW3 5 s0 =
      .ok (true, 3, ⟨mgr0, List.replicate 3 ["adb", "devices"], 2⟩) :=
  wait_for_device_third_iteration envW3 s0 "adb" 5 rfl (by decide)
    (by decide) (by decide) (by decide)

/-- C4: with a resolved path, `wait_for_device(max_attempts)` performs at
most `max_attempts` polling iterations and never raises; when no polled
output ever signals a ready device it returns false after exactly
`max_attempts` iterations, each issuing one (non-device-gated)
`['devices']` invocation and sleeping 1 time-unit. -/
theorem wait_for_device_bounded (env : Env) (s : SessState) (p : String)
    (max_attempts : Nat) (h : s.mgr.adb_path = some p) :
    (∃ b k s', wait_for_device env max_attempts s = .ok (b, k, s') ∧ k ≤ max_attempts)
    ∧ ((∀ n, strContains (run_core env n [p, "devices"]).output "device\n" = false) →
        wait_for_device env max_attempts s =
          .ok (false, max_attempts,
               ⟨s.mgr, s.trace ++ List.replicate max_attempts [p, "devices"],
                s.slept + max_attempts⟩)) := by
  constructor
  · obtain ⟨b, k, s', hw, _, hk⟩ := wait_loop_ok env p max_attempts s h
    exact ⟨b, k, s', hw, hk⟩
  · intro hnone
    exact wait_loop_exhaust env p hnone max_attempts s h

theorem wait_for_device_bounded_witness :
    wait_for_device envNever 5 s0 =
      .ok (false, 5, ⟨mgr0, List.replicate 5 ["adb", "devices"], 5⟩) :=
  (wait_for_device_bounded envNever s0 "adb" 5 rfl).2 (fun _ => rfl)

/-- C5 counterexample: with an explicit target device identifier
"ABC123", `get_device_info` behaves identically to a call with no target,
and every invocation it issues is exactly `[adb_path] + query` — no
device-serial selector (`-s`/"ABC123") appears anywhere in the trace. -/
theorem get_device_info_ignores_device_id :
    get_device_info envOk (some "ABC123") s0 = get_device_info envOk none s0
    ∧ get_device_info envOk (some "ABC123") s0 =
        .ok ([("Model", "value"), ("Android Version", "value"),
              ("Security Patch", "value"), ("Manufacturer", "value"),
              ("Serial Number", "value"), ("Bootloader", "value"),
              ("Hardware", "value")],
             ⟨mgr0, info_commands.map (fun c => "adb" :: c.1), 0⟩)
    ∧ (info_commands.map (fun c => "adb" :: c.1)).all
        (fun inv => !(inv.contains "ABC123" || inv.contains "-s")) = true := by
  refine ⟨rfl, rfl, ?_⟩
  decide

/-- C5 (amended): the full invocation built by the executor is the
executable location followed by the request's argument sequence, with no
device-serial selector; `get_device_info` accepts a target device
identifier but ignores it — its result does not depend on it. -/
theorem execute_command_no_serial_selector (env : Env) (s : SessState)
    (p : String) (command : List String) (h : s.mgr.adb_path = some p) :
    execute_command env command false s =
      .ok (run_core env s.trace.length (p :: command),
           ⟨s.mgr, s.trace ++ [p :: command], s.slept⟩)
    ∧ ∀ d₁ d₂ : Option String, get_device_info env d₁ s = get_device_info env d₂ s :=
  ⟨execute_command_nowait env command s p h, fun _ _ => rfl⟩

theorem execute_command_no_serial_selector_witness :
    execute_command envOk ["shell", "ls"] false s0 =
      .ok (run_core envOk 0 ["adb", "shell", "ls"],
           ⟨mgr0, [["adb", "shell", "ls"]], 0⟩)
    ∧ get_device_info envOk (some "X") s0 = get_device_info envOk none s0 :=
  ⟨(execute_command_no_serial_selector envOk s0 "adb" ["shell", "ls"] rfl).1,
   (execute_command_no_serial_selector envOk s0 "adb" ["shell", "ls"] rfl).2
     (some "X") none⟩

/-- C6: `get_device_info` issues exactly the fixed battery of seven
property queries, one invocation each, and returns the mapping whose
entries are exactly the keys whose own query succeeded with non-empty
output (value: that output stripped); each query's entry depends only on
its own outcome, so no failure blocks the others. -/
theorem get_device_info_keys (env : Env) (s : SessState) (p : String)
    (d : Option String) (h : s.mgr.adb_path = some p) :
    get_device_info env d s =
      .ok (info_collect env p s.trace.length info_commands,
           ⟨s.mgr, s.trace ++ info_commands.map (fun c => p :: c.1), s.slept⟩)
    ∧ ∀ key v,
        ((key, v) ∈ info_collect env p s.trace.length info_commands ↔
          ∃ i cmd, info_commands.get? i = some (cmd, key) ∧
            (run_core env (s.trace.length + i) (p :: cmd)).success = true ∧
            (run_core env (s.trace.length + i) (p :: cmd)).output ≠ "" ∧
            v = pyStrip (run_core env (s.trace.length + i) (p :: cmd)).output) :=
  ⟨info_loop_eq env p info_commands s h,
   fun key v => info_collect_mem env p info_commands s.trace.length key v⟩

theorem get_device_info_keys_witness :
    get_device_info envC6 none s0 =
      .ok ([("Model", "v"), ("Android Version", "v"), ("Manufacturer", "v"),
            ("Serial Number", "v"), ("Hardware", "v")],
           ⟨mgr0, info_commands.map (fun c => "adb" :: c.1), 0⟩) := by
  have h := (get_device_info_keys envC6 s0 "adb" none rfl).1
  rw [h]
  rfl

/-! ### Helper lemmas for claims C7-C10 -/

lemma find_adb_loop_none (probe : String → ProcOutcome) :
    ∀ l : List String,
      (find_adb_loop probe l = none ↔ ∀ q ∈ l, check_adb_path probe q = false) := by
  intro l
  induction l with
  | nil => simp [find_adb_loop]
  | cons a rest ih =>
    by_cases hc : check_adb_path probe a = true
    · simp [find_adb_loop, hc]
    · have hc' : check_adb_path probe a = false := by simpa using hc
      simp [find_adb_loop, hc', ih]

lemma find_adb_loop_some (probe : String → ProcOutcome) :
    ∀ (l : List String) (p : String), find_adb_loop probe l = some p →
      ∃ l₁ l₂, l = l₁ ++ p :: l₂ ∧ check_adb_path probe p = true ∧
        ∀ q ∈ l₁, check_adb_path probe q = false := by
  intro l
  induction l with
  | nil => intro p h; simp [find_adb_loop] at h
  | cons a rest ih =>
    intro p h
    by_cases hc : check_adb_path probe a = true
    · rw [find_adb_loop, if_pos hc] at h
      obtain rfl : a = p := by simpa using h
      exact ⟨[], rest, rfl, hc, by simp⟩
    · rw [find_adb_loop, if_neg hc] at h
      obtain ⟨l₁, l₂, hl, hp, hfail⟩ := ih p h
      refine ⟨a :: l₁, l₂, by simp [hl], hp, ?_⟩
      intro q hq
      rcases List.mem_cons.mp hq with rfl | hq'
      · simpa using hc
      · exact hfail q hq'

lemma execute_command_mgr (env : Env) (command : List String) (wait : Bool)
    (s : SessState) :
    ∀ r s', execute_command env command wait s = .ok (r, s') → s'.mgr = s.mgr := by
  intro r s' hok
  cases hp : s.mgr.adb_path with
  | none => simp [execute_command, hp] at hok
  | some p =>
    obtain ⟨s₁, hm, heq⟩ := execute_command_some env command wait s p hp
    rw [heq] at hok
    simp only [Except.ok.injEq, Prod.mk.injEq] at hok
    rw [← hok.2]
    exact hm

lemma wait_loop_mgr (env : Env) (fuel : Nat) (s : SessState) (b : Bool)
    (k : Nat) (s' : SessState) (h : wait_loop env fuel s = .ok (b, k, s')) :
    s'.mgr = s.mgr := by
  cases hp : s.mgr.adb_path with
  | none =>
    cases fuel with
    | zero =>
      simp only [wait_loop, Except.ok.injEq, Prod.mk.injEq] at h
      rw [← h.2.2]
    | succ fuel => simp [wait_loop, exec_cmd_core, hp] at h
  | some p =>
    obtain ⟨b₀, k₀, s₀, hw, hm, _⟩ := wait_loop_ok env p fuel s hp
    rw [hw] at h
    simp only [Except.ok.injEq, Prod.mk.injEq] at h
    rw [← h.2.2]
    exact hm

lemma info_loop_mgr (env : Env) (cmds : List (List String × String))
    (s : SessState) (info : List (String × String)) (s' : SessState)
    (h : info_loop env cmds s = .ok (info, s')) : s'.mgr = s.mgr := by
  cases hp : s.mgr.adb_path with
  | none =>
    cases cmds with
    | nil =>
      simp only [info_loop, Except.ok.injEq, Prod.mk.injEq] at h
      rw [← h.2]
    | cons c rest =>
      obtain ⟨cmd, key⟩ := c
      simp [info_loop, execute_command, hp] at h
  | some p =>
    rw [info_loop_eq env p cmds s hp] at h
    simp only [Except.ok.injEq, Prod.mk.injEq] at h
    rw [← h.2]

lemma reboot_device_mgr (env : Env) (mode : String) (s : SessState)
    (b : Bool) (s' : SessState) (h : reboot_device env mode s = .ok (b, s')) :
    s'.mgr = s.mgr := by
  cases hlk : reboot_modes.lookup mode with
  | none =>
    simp only [reboot_device, hlk, Except.ok.injEq, Prod.mk.injEq] at h
    rw [← h.2]
  | some tgt =>
    cases hex : execute_command env
        (if tgt == "" then ["reboot"] else ["reboot", tgt]) false s with
    | error e =>
      simp only [reboot_device, hlk, hex] at h
      exact Except.noConfusion h
    | ok x =>
      obtain ⟨r, s₁⟩ := x
      have hm := execute_command_mgr env _ false s r s₁ hex
      by_cases hs : r.success = true
      · simp only [reboot_device, hlk, hex, hs, if_true, Except.ok.injEq,
          Prod.mk.injEq] at h
        rw [← h.2]
        exact hm
      · have hs' : r.success = false := by simpa using hs
        simp only [reboot_device, hlk, hex, hs', Bool.false_eq_true, if_false,
          Except.ok.injEq, Prod.mk.injEq] at h
        rw [← h.2]
        exact hm

lemma is_device_rooted_mgr (env : Env) (s : SessState) (b : Bool)
    (s' : SessState) (h : is_device_rooted env s = .ok (b, s')) :
    s'.mgr = s.mgr := by
  cases hex : execute_command env ["shell", "su", "-c", "echo root_check"] false s with
  | error e =>
    simp only [is_device_rooted, hex] at h
    exact Except.noConfusion h
  | ok x =>
    obtain ⟨r, s₁⟩ := x
    have hm₁ := execute_command_mgr env _ false s r s₁ hex
    by_cases hc : (r.success && strContains r.output "root_check") = true
    · simp only [is_device_rooted, hex, hc, if_true, Except.ok.injEq,
        Prod.mk.injEq] at h
      rw [← h.2]
      exact hm₁
    · have hc' : (r.success && strContains r.output "root_check") = false := by
        simpa using hc
      cases hex₂ : execute_command env ["shell", "which", "su"] false s₁ with
      | error e =>
        simp only [is_device_rooted, hex, hc', Bool.false_eq_true, if_false,
          hex₂] at h
        exact Except.noConfusion h
      | ok y =>
        obtain ⟨r₂, s₂⟩ := y
        have hm₂ := execute_command_mgr env _ false s₁ r₂ s₂ hex₂
        simp only [is_device_rooted, hex, hc', Bool.false_eq_true, if_false,
          hex₂, Except.ok.injEq, Prod.mk.injEq] at h
        rw [← h.2, hm₂, hm₁]

lemma push_file_mgr (env : Env) (fs : String → Bool)
    (local_path device_path : String) (s : SessState) (b : Bool)
    (s' : SessState) (h : push_file env fs local_path device_path s = .ok (b, s')) :
    s'.mgr = s.mgr := by
  by_cases hfs : fs local_path = false
  · simp only [push_file, hfs, if_true, Except.ok.injEq, Prod.mk.injEq] at h
    rw [← h.2]
  · have hfs' : fs local_path = true := by simpa using hfs
    cases hex : execute_command env ["push", local_path, device_path] false s with
    | error e => simp [push_file, hfs', hex] at h
    | ok x =>
      obtain ⟨r, s₁⟩ := x
      have hm := execute_command_mgr env _ false s r s₁ hex
      simp [push_file, hfs', hex] at h
      rw [← h.2]
      exact hm

lemma pull_file_mgr (env : Env) (device_path local_path : String)
    (s : SessState) (b : Bool) (s' : SessState)
    (h : pull_file env device_path local_path s = .ok (b, s')) :
    s'.mgr = s.mgr := by
  cases hex : execute_command env ["pull", device_path, local_path] false s with
  | error e =>
    simp only [pull_file, hex] at h
    exact Except.noConfusion h
  | ok x =>
    obtain ⟨r, s₁⟩ := x
    have hm := execute_command_mgr env _ false s r s₁ hex
    simp only [pull_file, hex, Except.ok.injEq, Prod.mk.injEq] at h
    rw [← h.2]
    exact hm

lemma shell_command_mgr (env : Env) (command : String) (root : Bool)
    (s : SessState) (r : CommandResult) (s' : SessState)
    (h : shell_command env command root s = .ok (r, s')) : s'.mgr = s.mgr :=
  execute_command_mgr env _ false s r s' h

/-- C7: `reboot_device` rejects any mode outside the fixed enumeration
with `False` and no invocation; mode "fastboot" maps to reboot target
"bootloader"; and whenever the reboot command succeeds it returns `True`
after a fixed 5-time-unit grace delay. -/
theorem reboot_device_spec (env : Env) (s : SessState) (mode p : String) :
    (mode ∉ ["system", "recovery", "bootloader", "fastboot", "download", "sideload"] →
      reboot_device env mode s = .ok (false, s))
    ∧ reboot_modes.lookup "fastboot" = some "bootloader"
    ∧ (s.mgr.adb_path = some p →
        reboot_device env "fastboot" s =
          .ok ((run_core env s.trace.length [p, "reboot", "bootloader"]).success,
               ⟨s.mgr, s.trace ++ [[p, "reboot", "bootloader"]],
                s.slept +
                  if (run_core env s.trace.length [p, "reboot", "bootloader"]).success
                  then 5 else 0⟩))
    ∧ (∀ tgt, reboot_modes.lookup mode = some tgt → s.mgr.adb_path = some p →
        (run_core env s.trace.length
          (p :: (if tgt == "" then ["reboot"] else ["reboot", tgt]))).success = true →
        reboot_device env mode s =
          .ok (true,
               ⟨s.mgr,
                s.trace ++ [p :: (if tgt == "" then ["reboot"] else ["reboot", tgt])],
                s.slept + 5⟩)) := by
  refine ⟨?_, rfl, ?_, ?_⟩
  · intro hmode
    simp only [List.mem_cons, List.not_mem_nil, or_false, not_or] at hmode
    obtain ⟨h1, h2, h3, h4, h5, h6⟩ := hmode
    have hlk : reboot_modes.lookup mode = none := by
      simp [reboot_modes, List.lookup, beq_eq_false_iff_ne.mpr h1,
        beq_eq_false_iff_ne.mpr h2, beq_eq_false_iff_ne.mpr h3,
        beq_eq_false_iff_ne.mpr h4, beq_eq_false_iff_ne.mpr h5,
        beq_eq_false_iff_ne.mpr h6]
    simp [reboot_device, hlk]
  · intro hp
    have hlk : reboot_modes.lookup "fastboot" = some "bootloader" := rfl
    have hbe : (("bootloader" : String) == "") = false := rfl
    simp only [reboot_device, hlk, hbe, Bool.false_eq_true, if_false,
      execute_command_nowait env ["reboot", "bootloader"] s p hp]
    by_cases hs : (run_core env s.trace.length [p, "reboot", "bootloader"]).success = true
    · simp [hs]
    · have hs' : (run_core env s.trace.length [p, "reboot", "bootloader"]).success = false := by
        simpa using hs
      simp [hs']
  · intro tgt hlk hp hsucc
    simp only [reboot_device, hlk]
    rw [execute_command_nowait env (if tgt == "" then ["reboot"] else ["reboot", tgt]) s p hp]
    have hsucc' : (run_core env s.trace.length
        (p :: if tgt = "" then ["reboot"] else ["reboot", tgt])).success = true := by
      simpa using hsucc
    simp [hsucc']

theorem reboot_device_spec_witness :
    reboot_device envOk "not-a-real-mode" s0 = .ok (false, s0)
    ∧ reboot_modes.lookup "fastboot" = some "bootloader"
    ∧ reboot_device envOk "fastboot" s0 =
        .ok ((run_core envOk 0 ["adb", "reboot", "bootloader"]).success,
             ⟨mgr0, [["adb", "reboot", "bootloader"]],
              0 + if (run_core envOk 0 ["adb", "reboot", "bootloader"]).success
                  then 5 else 0⟩) :=
  ⟨(reboot_device_spec envOk s0 "not-a-real-mode" "adb").1 (by decide),
   (reboot_device_spec envOk s0 "not-a-real-mode" "adb").2.1,
   (reboot_device_spec envOk s0 "fastboot" "adb").2.2.1 rfl⟩

/-- C8: `is_device_rooted` returns true exactly when the primary elevated
echo check succeeds with the marker in its output, or else when the
fallback `which su` check succeeds with "/su" in its output; when the
primary check establishes root, the fallback is never invoked (exactly
one invocation is traced; otherwise exactly two). -/
theorem is_device_rooted_spec (env : Env) (s : SessState) (p : String)
    (h : s.mgr.adb_path = some p) :
    ((run_core env s.trace.length [p, "shell", "su", "-c", "echo root_check"]).success = true ∧
      strContains (run_core env s.trace.length
        [p, "shell", "su", "-c", "echo root_check"]).output "root_check" = true →
      is_device_rooted env s =
        .ok (true, ⟨s.mgr, s.trace ++ [[p, "shell", "su", "-c", "echo root_check"]], s.slept⟩))
    ∧ (¬((run_core env s.trace.length [p, "shell", "su", "-c", "echo root_check"]).success = true ∧
         strContains (run_core env s.trace.length
           [p, "shell", "su", "-c", "echo root_check"]).output "root_check" = true) →
       is_device_rooted env s =
         .ok ((run_core env (s.trace.length + 1) [p, "shell", "which", "su"]).success &&
                strContains (run_core env (s.trace.length + 1)
                  [p, "shell", "which", "su"]).output "/su",
              ⟨s.mgr, s.trace ++ [[p, "shell", "su", "-c", "echo root_check"],
                                  [p, "shell", "which", "su"]], s.slept⟩)) := by
  constructor
  · rintro ⟨hs, hm⟩
    have hcond : ((run_core env s.trace.length
        [p, "shell", "su", "-c", "echo root_check"]).success &&
        strContains (run_core env s.trace.length
          [p, "shell", "su", "-c", "echo root_check"]).output "root_check") = true := by
      simp [hs, hm]
    simp [is_device_rooted,
      execute_command_nowait env ["shell", "su", "-c", "echo root_check"] s p h, hcond]
  · intro hneg
    have hcond : ((run_core env s.trace.length
        [p, "shell", "su", "-c", "echo root_check"]).success &&
        strContains (run_core env s.trace.length
          [p, "shell", "su", "-c", "echo root_check"]).output "root_check") = false := by
      cases hs : (run_core env s.trace.length
          [p, "shell", "su", "-c", "echo root_check"]).success with
      | false => simp [hs]
      | true =>
        cases hm : strContains (run_core env s.trace.length
            [p, "shell", "su", "-c", "echo root_check"]).output "root_check" with
        | false => simp [hs, hm]
        | true => exact absurd ⟨hs, hm⟩ hneg
    simp only [is_device_rooted,
      execute_command_nowait env ["shell", "su", "-c", "echo root_check"] s p h,
      hcond, Bool.false_eq_true, if_false,
      execute_command_nowait env ["shell", "which", "su"]
        ⟨s.mgr, s.trace ++ [[p, "shell", "su", "-c", "echo root_check"]], s.slept⟩ p h]
    simp [List.length_append]

theorem is_device_rooted_spec_witness :
    is_device_rooted envRoot s0 =
      .ok (true, ⟨mgr0, [["adb", "shell", "su", "-c", "echo root_check"]], 0⟩) :=
  (is_device_rooted_spec envRoot s0 "adb" rfl).1 ⟨rfl, by decide⟩

/-- C9: path resolution probes the fixed ordered candidate list and
returns the first candidate whose version query exits with code 0; a
candidate whose probe raises (not found, permission denied) or times out
simply checks out false, and when every candidate fails the resolver
returns `None` — it never raises. -/
theorem find_adb_spec (probe : String → ProcOutcome) (home : String) :
    (∀ path rc out err, probe path = .completed rc out err →
      (check_adb_path probe path = true ↔ rc = 0))
    ∧ (∀ path, probe path = .timedOut → check_adb_path probe path = false)
    ∧ (∀ path msg, probe path = .exc msg → check_adb_path probe path = false)
    ∧ (find_adb probe home = none ↔
        ∀ q ∈ possible_paths home, check_adb_path probe q = false)
    ∧ (∀ p, find_adb probe home = some p →
        ∃ l₁ l₂, possible_paths home = l₁ ++ p :: l₂ ∧
          check_adb_path probe p = true ∧
          ∀ q ∈ l₁, check_adb_path probe q = false) := by
  refine ⟨?_, ?_, ?_, ?_, ?_⟩
  · intro path rc out err hp
    simp [check_adb_path, hp]
  · intro path hp
    simp [check_adb_path, hp]
  · intro path msg hp
    simp [check_adb_path, hp]
  · exact find_adb_loop_none probe (possible_paths home)
  · intro p hp
    exact find_adb_loop_some probe (possible_paths home) p hp

theorem find_adb_spec_witness :
    check_adb_path probeC9 "adb" = false
    ∧ (check_adb_path probeC9 "/usr/local/bin/adb" = true ↔ (0 : Int) = 0) :=
  ⟨(find_adb_spec probeC9 "/home/u").2.2.1 "adb" "No such file or directory" rfl,
   (find_adb_spec probeC9 "/home/u").1 "/usr/local/bin/adb" 0
     "Android Debug Bridge version 1.0.41" "" rfl⟩

/-- C10: every public session operation leaves the manager (its resolved
`adb_path`, `devices` and `timeout`, set only at construction) unchanged
— on every path, including every failure path, only the effect trace and
sleep counter of the session differ. -/
theorem session_state_immutable (env : Env) (s : SessState)
    (command : List String) (wait : Bool) (max_attempts : Nat)
    (d : Option String) (mode lp dp dp₂ lp₂ cmdStr : String)
    (fs : String → Bool) (root : Bool) :
    (∀ r s', execute_command env command wait s = .ok (r, s') → s'.mgr = s.mgr)
    ∧ (∀ b k s', wait_for_device env max_attempts s = .ok (b, k, s') → s'.mgr = s.mgr)
    ∧ (∀ info s', get_device_info env d s = .ok (info, s') → s'.mgr = s.mgr)
    ∧ (∀ b s', reboot_device env mode s = .ok (b, s') → s'.mgr = s.mgr)
    ∧ (∀ b s', is_device_rooted env s = .ok (b, s') → s'.mgr = s.mgr)
    ∧ (∀ b s', push_file env fs lp dp s = .ok (b, s') → s'.mgr = s.mgr)
    ∧ (∀ b s', pull_file env dp₂ lp₂ s = .ok (b, s') → s'.mgr = s.mgr)
    ∧ (∀ r s', shell_command env cmdStr root s = .ok (r, s') → s'.mgr = s.mgr) := by
  refine ⟨?_, ?_, ?_, ?_, ?_, ?_, ?_, ?_⟩
  · intro r s' hok
    exact execute_command_mgr env command wait s r s' hok
  · intro b k s' hok
    exact wait_loop_mgr env max_attempts s b k s' hok
  · intro info s' hok
    exact info_loop_mgr env info_commands s info s' hok
  · intro b s' hok
    exact reboot_device_mgr env mode s b s' hok
  · intro b s' hok
    exact is_device_rooted_mgr env s b s' hok
  · intro b s' hok
    exact push_file_mgr env fs lp dp s b s' hok
  · intro b s' hok
    exact pull_file_mgr env dp₂ lp₂ s b s' hok
  · intro r s' hok
    exact shell_command_mgr env cmdStr root s r s' hok

theorem session_state_immutable_witness :
    (⟨mgr0, [["adb", "devices"]], 0⟩ : SessState).mgr = s0.mgr
    ∧ (⟨mgr0, [["adb", "shell", "su", "-c", "echo root_check"]], 0⟩ : SessState).mgr = s0.mgr :=
  ⟨(session_state_immutable envOk s0 ["devices"] false 5 none "system" "a" "b" "c" "d"
      "e" (fun _ => true) false).1 (run_core envOk 0 ["adb", "devices"]) _ rfl,
   (session_state_immutable envRoot s0 ["devices"] false 5 none "system" "a" "b" "c" "d"
      "e" (fun _ => true) false).2.2.2.2.1 true _ rfl⟩
